import Mathlib

/-!
Shallow embedding of the transaction normalization and metrics pipeline of
src/services/transactionService.ts (class TransactionService), together with
the provider-facing fetch orchestrator. JavaScript numbers are modelled as
JsNum (either NaN or an exact rational; every amount occurring in the code is
a small decimal, exactly representable), JavaScript strings as String, and
optional / possibly-undefined fields as Option. ISO-8601 date strings are
abstracted as Int timestamps in milliseconds (the code only ever compares
them through new Date(...)); subtracting N days via setDate is modelled as
subtracting N * 86400000 ms. Provider calls that may throw are modelled as
Except values; the orchestrator itself is total, mirroring its catch-all.
-/

/-- Model of a JavaScript number as used by the pipeline: NaN or a rational. -/
inductive JsNum where
  | nan : JsNum
  | num : ℚ → JsNum
deriving DecidableEq

/-- JavaScript addition on the modelled numbers: NaN is absorbing. -/
def JsNum.add : JsNum → JsNum → JsNum
  | .num a, .num b => .num (a + b)
  | _, _ => .nan

/-- JavaScript negation on the modelled numbers. -/
def JsNum.neg : JsNum → JsNum
  | .num a => .num (-a)
  | .nan => .nan

/-- JavaScript subtraction on the modelled numbers. -/
def JsNum.sub (x y : JsNum) : JsNum := JsNum.add x (JsNum.neg y)

instance : Add JsNum := ⟨JsNum.add⟩

instance : Zero JsNum := ⟨JsNum.num 0⟩

instance : AddCommMonoid JsNum where
  add := (· + ·)
  zero := 0
  add_assoc a b c := by
    show JsNum.add (JsNum.add a b) c = JsNum.add a (JsNum.add b c)
    cases a <;> cases b <;> cases c <;> simp [JsNum.add] <;> ring
  zero_add a := by
    show JsNum.add (JsNum.num 0) a = a
    cases a <;> simp [JsNum.add]
  add_zero a := by
    show JsNum.add a (JsNum.num 0) = a
    cases a <;> simp [JsNum.add]
  add_comm a b := by
    show JsNum.add a b = JsNum.add b a
    cases a <;> cases b <;> simp [JsNum.add] <;> ring
  nsmul := nsmulRec

instance : Neg JsNum := ⟨JsNum.neg⟩

instance : Sub JsNum := ⟨JsNum.sub⟩

/-- Accumulate decimal digits into a natural number, most significant first. -/
def digitsToNatAux (acc : ℕ) : List Char → ℕ
  | [] => acc
  | c :: cs => digitsToNatAux (10 * acc + (c.toNat - 48)) cs

/-- Syntactic stage of the JavaScript parseFloat builtin on the decimal
syntax the code relies on: skip leading whitespace, optional sign, digits,
optional fraction; trailing garbage is ignored; if no digit is consumed the
parse fails. Returns the sign flag, the integer digits, the fraction digits
and the fraction length. (The exponent and Infinity forms of parseFloat are
outside the modelled subset; the repository never produces them.) -/
def parseDecimal (s : String) : Option (Bool × ℕ × ℕ × ℕ) :=
  let cs0 := s.toList.dropWhile Char.isWhitespace
  let sg : Bool × List Char :=
    match cs0 with
    | '-' :: t => (true, t)
    | '+' :: t => (false, t)
    | _ => (false, cs0)
  let intPart := sg.2.takeWhile Char.isDigit
  let rest := sg.2.dropWhile Char.isDigit
  let fracPart : List Char :=
    match rest with
    | '.' :: t => t.takeWhile Char.isDigit
    | _ => []
  if intPart = [] ∧ fracPart = [] then none
  else some (sg.1, digitsToNatAux 0 intPart, digitsToNatAux 0 fracPart,
    fracPart.length)

/-- Model of the JavaScript parseFloat builtin: NaN when no digit is
consumed, otherwise the signed decimal value. -/
def jsParseFloat (s : String) : JsNum :=
  match parseDecimal s with
  | none => JsNum.nan
  | some (sgn, ip, fp, k) =>
    JsNum.num ((if sgn then (-1 : ℚ) else 1) * ((ip : ℚ) + (fp : ℚ) / (10 : ℚ) ^ k))

/-- JavaScript `o || d` on a possibly-undefined string (empty string is falsy). -/
def jsStrOr (o : Option String) (d : String) : String :=
  match o with
  | some s => if s = "" then d else s
  | none => d

/-- JavaScript `a || b` keeping undefined: the left string when truthy, else b. -/
def jsStrChain (a b : Option String) : Option String :=
  match a with
  | some s => if s = "" then b else some s
  | none => b

/-- Truthiness filter for a possibly-undefined string. -/
def strTruthy (o : Option String) : Option String :=
  match o with
  | some s => if s = "" then none else some s
  | none => none

/-- JavaScript lowercasing (ASCII) as used by toLowerCase in the code. -/
def jsToLower (s : String) : String := String.mk (s.toList.map Char.toLower)

/-- Substring test on character lists: models the JavaScript includes method. -/
def charListIncludes (q : List Char) : List Char → Bool
  | [] => q.isPrefixOf []
  | c :: t => q.isPrefixOf (c :: t) || charListIncludes q t

/-- Model of JavaScript s.includes(q). -/
def strIncludes (s q : String) : Bool := charListIncludes q.toList s.toList

/-- The closed canonical status set of the Transaction interface. -/
inductive CanonStatus where
  | APPROVED | PENDING | DECLINED | REFUNDED | CANCELLED
deriving DecidableEq

/-- String form of a canonical status, as stored in the TS union type. -/
def canonStr : CanonStatus → String
  | .APPROVED => "APPROVED"
  | .PENDING => "PENDING"
  | .DECLINED => "DECLINED"
  | .REFUNDED => "REFUNDED"
  | .CANCELLED => "CANCELLED"

/-- The canonical Transaction record (interface Transaction). createdDate is
an ISO-8601 string in the source, abstracted here as a millisecond timestamp. -/
structure Transaction where
  id : String
  amount : JsNum
  currency : String
  status : CanonStatus
  paymentMethod : String
  customerName : Option String
  customerEmail : Option String
  createdDate : Int
  description : Option String
  provider : Option String
  providerTransactionId : Option String
  type : Option String
deriving DecidableEq

/-- interface TransactionFilters (all fields optional). -/
structure TransactionFilters where
  status : Option String
  dateRange : Option Int
  searchQuery : Option String
  limit : Option Int
  offset : Option Int
deriving DecidableEq

/-- interface TransactionMetrics. -/
structure TransactionMetrics where
  totalApproved : JsNum
  totalPending : JsNum
  totalDeclined : JsNum
  totalRefunded : JsNum
  totalTransactions : ℕ
  totalRevenue : JsNum
deriving DecidableEq

/-- One step of the forEach loop in calculateMetrics. -/
def metricsStep (m : TransactionMetrics) (t : Transaction) : TransactionMetrics :=
  match t.status with
  | .APPROVED =>
      { m with totalApproved := m.totalApproved + t.amount,
               totalRevenue := m.totalRevenue + t.amount }
  | .PENDING => { m with totalPending := m.totalPending + t.amount }
  | .DECLINED => { m with totalDeclined := m.totalDeclined + t.amount }
  | .REFUNDED =>
      { m with totalRefunded := m.totalRefunded + t.amount,
               totalRevenue := m.totalRevenue - t.amount }
  | .CANCELLED => m

/-- TransactionService.calculateMetrics: one linear pass over the collection. -/
def calculateMetrics (transactions : List Transaction) : TransactionMetrics :=
  transactions.foldl metricsStep
    { totalApproved := 0, totalPending := 0, totalDeclined := 0,
      totalRefunded := 0, totalTransactions := transactions.length,
      totalRevenue := 0 }

/-- TransactionService.applyFilters. The three filters are applied in the
order of the source: status, search query, date range. The now parameter
stands for the current time used to build the cutoff date. -/
def applyFilters (now : Int) (transactions : List Transaction)
    (filters : Option TransactionFilters) : List Transaction :=
  match filters with
  | none => transactions
  | some f =>
    let filtered := transactions
    let filtered :=
      match f.status with
      | none => filtered
      | some s =>
        if s = "" ∨ s = "all" then filtered
        else filtered.filter (fun t => jsToLower (canonStr t.status) == jsToLower s)
    let filtered :=
      match f.searchQuery with
      | none => filtered
      | some q =>
        if q = "" then filtered
        else
          let query := jsToLower q
          filtered.filter (fun t =>
            (match t.customerName with
             | some n => strIncludes (jsToLower n) query
             | none => false) ||
            (match t.customerEmail with
             | some e => strIncludes (jsToLower e) query
             | none => false) ||
            strIncludes (jsToLower t.id) query ||
            (match t.description with
             | some d => strIncludes (jsToLower d) query
             | none => false))
    match f.dateRange with
    | none => filtered
    | some n =>
      if n = 0 then filtered
      else filtered.filter (fun t => decide (now - n * 86400000 ≤ t.createdDate))

/-- Wix payment price object (payment.amount: { amount, currency }). -/
structure PriceObj where
  amount : Option String
  currency : Option String
deriving DecidableEq

/-- payment.regularPaymentDetails. -/
structure RegularPaymentDetails where
  status : Option String
  paymentMethod : Option String
  providerTransactionId : Option String
deriving DecidableEq

/-- A provider payment record as consumed by the transformer. The source
field _id is written idStr here; _createdDate is a millisecond timestamp. -/
structure WixPayment where
  idStr : Option String
  amount : Option PriceObj
  regularPaymentDetails : Option RegularPaymentDetails
  createdDate : Option Int
deriving DecidableEq

/-- order.billingInfo.contactDetails. -/
structure ContactDetails where
  firstName : Option String
  lastName : Option String
deriving DecidableEq

/-- order.billingInfo. -/
structure BillingInfo where
  contactDetails : Option ContactDetails
deriving DecidableEq

/-- order.buyerInfo. -/
structure BuyerInfo where
  firstName : Option String
  lastName : Option String
  email : Option String
deriving DecidableEq

/-- A provider order record (the fields the transformer reads). The source
field _id is written idStr here. -/
structure WixOrder where
  idStr : Option String
  number : Option String
  currency : Option String
  billingInfo : Option BillingInfo
  buyerInfo : Option BuyerInfo
deriving DecidableEq

/-- refund.summary.refunded: { amount, currency }. -/
structure RefundedSummary where
  amount : Option String
  currency : Option String
deriving DecidableEq

/-- refund.summary. -/
structure RefundSummary where
  refunded : Option RefundedSummary
deriving DecidableEq

/-- One element of refund.transactions. -/
structure RefundTxEntry where
  providerRefundId : Option String
deriving DecidableEq

/-- A provider refund record as consumed by the transformer. -/
structure WixRefund where
  idStr : Option String
  summary : Option RefundSummary
  createdDate : Option Int
  transactions : Option (List RefundTxEntry)
deriving DecidableEq

/-- TransactionService.getCustomerNameFromOrder, second branch: the buyer
info chain, falling back to the literal Customer. -/
def buyerNameFromOrder (o : Option WixOrder) : String :=
  match strTruthy (o.bind fun od => od.buyerInfo.bind BuyerInfo.firstName),
        strTruthy (o.bind fun od => od.buyerInfo.bind BuyerInfo.lastName) with
  | some f, some l => f ++ " " ++ l
  | _, _ => "Customer"

/-- TransactionService.getCustomerNameFromOrder. -/
def getCustomerNameFromOrder (o : Option WixOrder) : String :=
  match o.bind fun od => od.billingInfo.bind BillingInfo.contactDetails with
  | some c =>
    match strTruthy c.firstName, strTruthy c.lastName with
    | some f, some l => f ++ " " ++ l
    | _, _ => buyerNameFromOrder o
  | none => buyerNameFromOrder o

/-- The status derivation block of transformPaymentToTransaction: status
starts as PENDING and is reassigned only when regularPaymentDetails.status
is truthy and matches one of the enumerated provider values. -/
def paymentCanonStatus (p : WixPayment) : CanonStatus :=
  match p.regularPaymentDetails with
  | none => .PENDING
  | some d =>
    match d.status with
    | none => .PENDING
    | some s =>
      if s = "" then .PENDING
      else if s = "APPROVED" ∨ s = "AUTHORIZED" then .APPROVED
      else if s = "DECLINED" ∨ s = "CANCELED" then .DECLINED
      else if s = "REFUNDED" ∨ s = "PARTIALLY_REFUNDED" then .REFUNDED
      else .PENDING

/-- The order number shown in descriptions: order?.number || order?._id,
interpolated the way a JS template literal stringifies undefined. -/
def orderNumberStr (o : Option WixOrder) : String :=
  (jsStrChain (o.bind WixOrder.number) (o.bind WixOrder.idStr)).getD "undefined"

/-- TransactionService.transformPaymentToTransaction. now models the clock
read by Date.now() and new Date(). -/
def transformPaymentToTransaction (now : Int) (payment : WixPayment)
    (order : Option WixOrder) : Transaction :=
  { id := jsStrOr payment.idStr ("TXN-" ++ toString now)
    amount := jsParseFloat (jsStrOr (payment.amount.bind PriceObj.amount) "0")
    currency := jsStrOr (jsStrChain (payment.amount.bind PriceObj.currency)
      (order.bind WixOrder.currency)) "EUR"
    status := paymentCanonStatus payment
    paymentMethod := jsStrOr
      (payment.regularPaymentDetails.bind RegularPaymentDetails.paymentMethod) "Unknown"
    customerName := some (getCustomerNameFromOrder order)
    customerEmail := some (jsStrOr
      (order.bind fun od => od.buyerInfo.bind BuyerInfo.email) "customer@example.com")
    createdDate := payment.createdDate.getD now
    description := some ("Order #" ++ orderNumberStr order ++ " payment")
    provider := payment.regularPaymentDetails.bind RegularPaymentDetails.paymentMethod
    providerTransactionId :=
      payment.regularPaymentDetails.bind RegularPaymentDetails.providerTransactionId
    type := some "PAYMENT" }

/-- TransactionService.transformRefundToTransaction. -/
def transformRefundToTransaction (now : Int) (refund : WixRefund)
    (order : Option WixOrder) : Transaction :=
  { id := jsStrOr refund.idStr ("REF-" ++ toString now)
    amount := jsParseFloat (jsStrOr
      (refund.summary.bind fun s => s.refunded.bind RefundedSummary.amount) "0")
    currency := jsStrOr (jsStrChain
      (refund.summary.bind fun s => s.refunded.bind RefundedSummary.currency)
      (order.bind WixOrder.currency)) "EUR"
    status := .REFUNDED
    paymentMethod := "Refund"
    customerName := some (getCustomerNameFromOrder order)
    customerEmail := some (jsStrOr
      (order.bind fun od => od.buyerInfo.bind BuyerInfo.email) "customer@example.com")
    createdDate := refund.createdDate.getD now
    description := some ("Order #" ++ orderNumberStr order ++ " refund")
    provider := some "Refund"
    providerTransactionId :=
      (refund.transactions.bind List.head?).bind RefundTxEntry.providerRefundId
    type := some "REFUND" }

/-- Result shape of fetchTransactions / refreshTransactions. -/
structure FetchResult where
  data : List Transaction
  usingMockData : Bool
deriving DecidableEq

/-- Result of orders.searchOrders (the one field the code reads). -/
structure OrdersResult where
  orders : Option (List WixOrder)
deriving DecidableEq

/-- One element of transactionsResult.orderTransactions. -/
structure OrderTx where
  orderId : Option String
  payments : Option (List WixPayment)
  refunds : Option (List WixRefund)
deriving DecidableEq

/-- Result of orderTransactions.listTransactionsForMultipleOrders. -/
structure TransactionsResult where
  orderTransactions : Option (List OrderTx)
deriving DecidableEq

/-- The external provider boundary: the two awaited calls of
fetchTransactions, each of which may throw (modelled as Except). -/
structure ProviderEnv where
  searchOrders : Except String OrdersResult
  listTransactionsForMultipleOrders : List String → Except String TransactionsResult

/-- The inline status pre-filter of the fetch loop:
!filters?.status || filters.status === all || tx.status matches, lowercased. -/
def statusFilterOk (filters : Option TransactionFilters) (t : Transaction) : Bool :=
  match filters with
  | none => true
  | some f =>
    match f.status with
    | none => true
    | some s =>
      if s = "" then true
      else if s = "all" then true
      else jsToLower (canonStr t.status) == jsToLower s

/-- TransactionService.getMockTransactions: the fixed synthetic dataset.
The ISO createdDate strings of the source are given as millisecond
timestamps: 2025-01-15T10:30:00Z, 2025-01-14T14:22:00Z, 2025-01-13T09:45:00Z,
2025-01-12T16:10:00Z, 2025-01-11T11:30:00Z. -/
def getMockTransactions : List Transaction :=
  [ { id := "TXN-001", amount := .num 250.00, currency := "EUR",
      status := .APPROVED, paymentMethod := "Credit Card",
      customerName := some "John Doe", customerEmail := some "john.doe@example.com",
      createdDate := 1736937000000,
      description := some "Invoice #INV-001 payment",
      provider := none, providerTransactionId := none, type := none },
    { id := "TXN-002", amount := .num 180.50, currency := "EUR",
      status := .APPROVED, paymentMethod := "PayPal",
      customerName := some "Jane Smith", customerEmail := some "jane.smith@example.com",
      createdDate := 1736864520000,
      description := some "Invoice #INV-002 payment",
      provider := none, providerTransactionId := none, type := none },
    { id := "TXN-003", amount := .num 320.75, currency := "EUR",
      status := .PENDING, paymentMethod := "Bank Transfer",
      customerName := some "Mike Johnson", customerEmail := some "mike.johnson@example.com",
      createdDate := 1736761500000,
      description := some "Invoice #INV-003 payment",
      provider := none, providerTransactionId := none, type := none },
    { id := "TXN-004", amount := .num 95.00, currency := "EUR",
      status := .DECLINED, paymentMethod := "Credit Card",
      customerName := some "Sarah Wilson", customerEmail := some "sarah.wilson@example.com",
      createdDate := 1736698200000,
      description := some "Invoice #INV-004 payment",
      provider := none, providerTransactionId := none, type := none },
    { id := "TXN-005", amount := .num 450.25, currency := "EUR",
      status := .REFUNDED, paymentMethod := "Credit Card",
      customerName := some "David Brown", customerEmail := some "david.brown@example.com",
      createdDate := 1736595000000,
      description := some "Invoice #INV-005 payment refund",
      provider := none, providerTransactionId := none, type := none } ]

/-- Extraction of order ids: map to _id and drop null/undefined. -/
def extractOrderIds (os : List WixOrder) : List String :=
  (os.map WixOrder.idStr).filterMap (fun x => x)

/-- The transformation loop of fetchTransactions: for each order transaction
group, look up the parent order, transform payments then refunds, pushing
each transaction that passes the inline status filter. -/
def collectTransactions (now : Int) (os : List WixOrder) (otxs : List OrderTx)
    (filters : Option TransactionFilters) : List Transaction :=
  otxs.foldl (fun acc otx =>
    let order := os.find? (fun o => o.idStr == otx.orderId)
    let acc :=
      match otx.payments with
      | none => acc
      | some ps => acc ++ (ps.map (fun p => transformPaymentToTransaction now p order)).filter
          (statusFilterOk filters)
    match otx.refunds with
    | none => acc
    | some rs => acc ++ (rs.map (fun r => transformRefundToTransaction now r order)).filter
        (statusFilterOk filters)) []

/-- TransactionService.fetchTransactions. Any provider failure — the order
search throwing, no orders, or the transaction listing throwing — lands in
the catch-all that returns the mock dataset with usingMockData true. -/
def fetchTransactions (env : ProviderEnv) (now : Int)
    (filters : Option TransactionFilters) : FetchResult :=
  match env.searchOrders with
  | .error _ => { data := getMockTransactions, usingMockData := true }
  | .ok ordersResult =>
    match ordersResult.orders with
    | none => { data := getMockTransactions, usingMockData := true }
    | some os =>
      if os.length > 0 then
        match env.listTransactionsForMultipleOrders (extractOrderIds os) with
        | .error _ => { data := getMockTransactions, usingMockData := true }
        | .ok txr =>
          let transactionData :=
            match txr.orderTransactions with
            | none => []
            | some otxs => collectTransactions now os otxs filters
          { data := transactionData, usingMockData := false }
      else { data := getMockTransactions, usingMockData := true }

/-- The filter object literal passed by refreshTransactions: dateRange 7. -/
def sevenDayFilters : TransactionFilters :=
  { status := none, dateRange := some 7, searchQuery := none,
    limit := none, offset := none }

/-- TransactionService.refreshTransactions: fetchTransactions with the
filter object containing dateRange 7. -/
def refreshTransactions (env : ProviderEnv) (now : Int) : FetchResult :=
  fetchTransactions env now (some sevenDayFilters)

/-- The claimed specification of refreshTransactions, stated from the words
of the spec for the refinement comparison: the fetchTransactions result
constrained to transactions whose createdDate lies within now minus 7 days. -/
def refreshTransactionsSpec (env : ProviderEnv) (now : Int) : FetchResult :=
  let r := fetchTransactions env now (some sevenDayFilters)
  { data := r.data.filter (fun t => decide (now - 7 * 86400000 ≤ t.createdDate)),
    usingMockData := r.usingMockData }

/-- The disjunction of provider failure modes named by the error-handling
claim: order search throws, order search yields no orders, or the
transaction listing throws for the searched orders. -/
def providerFailure (env : ProviderEnv) : Prop :=
  (∃ e, env.searchOrders = .error e) ∨
  (∃ r, env.searchOrders = .ok r ∧ (r.orders = none ∨ r.orders = some [])) ∨
  (∃ r os e, env.searchOrders = .ok r ∧ r.orders = some os ∧ os ≠ [] ∧
    env.listTransactionsForMultipleOrders (extractOrderIds os) = .error e)

/-- Contribution of one transaction to totalApproved. -/
def approvedAmt (t : Transaction) : JsNum :=
  match t.status with
  | .APPROVED => t.amount
  | _ => 0

/-- Contribution of one transaction to totalPending. -/
def pendingAmt (t : Transaction) : JsNum :=
  match t.status with
  | .PENDING => t.amount
  | _ => 0

/-- Contribution of one transaction to totalDeclined. -/
def declinedAmt (t : Transaction) : JsNum :=
  match t.status with
  | .DECLINED => t.amount
  | _ => 0

/-- Contribution of one transaction to totalRefunded. -/
def refundedAmt (t : Transaction) : JsNum :=
  match t.status with
  | .REFUNDED => t.amount
  | _ => 0

/-- Signed contribution of one transaction to totalRevenue. -/
def revenueAmt (t : Transaction) : JsNum :=
  match t.status with
  | .APPROVED => t.amount
  | .REFUNDED => JsNum.neg t.amount
  | _ => 0

/-- The effective regularPaymentDetails.status chain read by the status block. -/
def optStatus (p : WixPayment) : Option String :=
  p.regularPaymentDetails.bind RegularPaymentDetails.status

/-- The effective payment.amount.amount chain read by the amount parse. -/
def paymentAmtStr (p : WixPayment) : Option String :=
  p.amount.bind PriceObj.amount

/-- The effective refund.summary.refunded.amount chain read by the amount parse. -/
def refundAmtStr (r : WixRefund) : Option String :=
  r.summary.bind fun s => s.refunded.bind RefundedSummary.amount

/-- A filter object with every field absent. -/
def emptyFilters : TransactionFilters :=
  { status := none, dateRange := none, searchQuery := none,
    limit := none, offset := none }

/-- A filter object carrying only a date range. -/
def dateOnlyFilters (n : Int) : TransactionFilters :=
  { status := none, dateRange := some n, searchQuery := none,
    limit := none, offset := none }

/-- A fixed current time for concrete evaluations: 2025-01-15T10:30:00Z in ms. -/
def nowW : Int := 1736937000000

/-- A small concrete approved transaction for concrete evaluations. -/
def txA : Transaction :=
  { id := "A", amount := .num 10, currency := "EUR", status := .APPROVED,
    paymentMethod := "Card", customerName := none, customerEmail := none,
    createdDate := nowW, description := none, provider := none,
    providerTransactionId := none, type := none }

/-- A small concrete refunded transaction for concrete evaluations. -/
def txB : Transaction :=
  { txA with id := "B", amount := .num 3, status := .REFUNDED }

/-- A transaction created ten days before nowW. -/
def txOld : Transaction :=
  { txA with id := "OLD", createdDate := nowW - 10 * 86400000 }

/-- A payment whose provider status is AUTHORIZED. -/
def pAuth : WixPayment :=
  { idStr := some "pay-auth", amount := none,
    regularPaymentDetails := some { status := some "AUTHORIZED", paymentMethod := none, providerTransactionId := none },
    createdDate := none }

/-- A refund record with every field absent. -/
def rfEmpty : WixRefund :=
  { idStr := none, summary := none, createdDate := none, transactions := none }

/-- A payment with no amount object at all. -/
def pNoAmount : WixPayment :=
  { idStr := some "pay-missing", amount := none,
    regularPaymentDetails := none, createdDate := none }

/-- A payment whose amount string is unparsable. -/
def pBadAmount : WixPayment :=
  { idStr := some "pay-bad",
    amount := some { amount := some "abc", currency := some "EUR" },
    regularPaymentDetails := none, createdDate := none }

/-- A payment whose amount string is a negative decimal. -/
def pNegAmount : WixPayment :=
  { idStr := some "pay-neg",
    amount := some { amount := some "-5", currency := some "EUR" },
    regularPaymentDetails := none, createdDate := none }

/-- A provider environment whose order search throws. -/
def envErr : ProviderEnv :=
  { searchOrders := .error "network error",
    listTransactionsForMultipleOrders := fun _ => .error "network error" }

/-- A concrete order for the refresh counterexample. -/
def ordC1 : WixOrder :=
  { idStr := some "order-1", number := some "1001", currency := some "EUR",
    billingInfo := none, buyerInfo := none }

/-- An approved payment on that order created thirty days before nowW. -/
def payC1 : WixPayment :=
  { idStr := some "pay-1",
    amount := some { amount := some "100.00", currency := some "EUR" },
    regularPaymentDetails := some { status := some "APPROVED", paymentMethod := some "Credit Card", providerTransactionId := none },
    createdDate := some (nowW - 30 * 86400000) }

/-- A provider environment that successfully returns the thirty-day-old
payment of payC1 for order ordC1. -/
def envC1 : ProviderEnv :=
  { searchOrders := .ok { orders := some [ordC1] },
    listTransactionsForMultipleOrders := fun _ =>
      .ok { orderTransactions := some [ { orderId := some "order-1", payments := some [payC1], refunds := none } ] } }

theorem jsnumAddDef (x y : JsNum) : x + y = JsNum.add x y := rfl

theorem jsnumSubDef (x y : JsNum) : x - y = JsNum.add x (JsNum.neg y) := rfl

theorem jsnumZeroDef : (0 : JsNum) = JsNum.num 0 := rfl

theorem revenueAmt_eq (t : Transaction) :
    revenueAmt t = approvedAmt t - refundedAmt t := by
  cases ht : t.status <;> cases ha : t.amount <;>
    simp [revenueAmt, approvedAmt, refundedAmt, ht, ha, jsnumSubDef, jsnumZeroDef,
      JsNum.add, JsNum.neg]

theorem jsnumRevStep (a r x y : JsNum) :
    (a - r) + (x - y) = (a + x) - (r + y) := by
  cases a <;> cases r <;> cases x <;> cases y <;>
    simp [jsnumAddDef, jsnumSubDef, JsNum.add, JsNum.neg] <;> ring

theorem jsnumSubAddAssoc (x a s : JsNum) :
    (x - a) + s = x + (JsNum.neg a + s) := by
  cases x <;> cases a <;> cases s <;>
    simp [jsnumAddDef, jsnumSubDef, JsNum.add, JsNum.neg] <;> ring

theorem foldl_metricsStep (ts : List Transaction) : ∀ m : TransactionMetrics,
    ts.foldl metricsStep m =
      { totalApproved := m.totalApproved + (ts.map approvedAmt).sum,
        totalPending := m.totalPending + (ts.map pendingAmt).sum,
        totalDeclined := m.totalDeclined + (ts.map declinedAmt).sum,
        totalRefunded := m.totalRefunded + (ts.map refundedAmt).sum,
        totalTransactions := m.totalTransactions,
        totalRevenue := m.totalRevenue + (ts.map revenueAmt).sum } := by
  induction ts with
  | nil => intro m; simp
  | cons t ts ih =>
    intro m
    rw [List.foldl_cons, ih]
    cases ht : t.status <;>
      simp [metricsStep, approvedAmt, pendingAmt, declinedAmt, refundedAmt,
        revenueAmt, ht, add_assoc, jsnumSubAddAssoc]

theorem calculateMetrics_eq (ts : List Transaction) :
    calculateMetrics ts =
      { totalApproved := (ts.map approvedAmt).sum,
        totalPending := (ts.map pendingAmt).sum,
        totalDeclined := (ts.map declinedAmt).sum,
        totalRefunded := (ts.map refundedAmt).sum,
        totalTransactions := ts.length,
        totalRevenue := (ts.map revenueAmt).sum } := by
  rw [calculateMetrics, foldl_metricsStep]
  simp

theorem revenue_sum_eq (ts : List Transaction) :
    (ts.map revenueAmt).sum =
      (ts.map approvedAmt).sum - (ts.map refundedAmt).sum := by
  induction ts with
  | nil => simp [jsnumSubDef, jsnumZeroDef, JsNum.add, JsNum.neg]
  | cons t ts ih =>
    simp only [List.map_cons, List.sum_cons, ih, revenueAmt_eq]
    exact jsnumRevStep (approvedAmt t) (refundedAmt t) _ _

/-- C3: for every collection, calculateMetrics satisfies
totalRevenue = totalApproved - totalRefunded, and on the empty collection
every field of the returned TransactionMetrics is zero. -/
theorem C3_metrics_invariant (ts : List Transaction) :
    (calculateMetrics ts).totalRevenue =
      (calculateMetrics ts).totalApproved - (calculateMetrics ts).totalRefunded ∧
    calculateMetrics [] =
      { totalApproved := 0, totalPending := 0, totalDeclined := 0,
        totalRefunded := 0, totalTransactions := 0, totalRevenue := 0 } := by
  refine ⟨?_, rfl⟩
  rw [calculateMetrics_eq]
  exact revenue_sum_eq ts

/-- C6: calculateMetrics is a deterministic pure reduction, invariant under
permutation of the input collection. -/
theorem C6_metrics_permutation (ts1 ts2 : List Transaction) (h : ts1.Perm ts2) :
    calculateMetrics ts1 = calculateMetrics ts2 := by
  rw [calculateMetrics_eq, calculateMetrics_eq, h.length_eq,
    (h.map approvedAmt).sum_eq, (h.map pendingAmt).sum_eq,
    (h.map declinedAmt).sum_eq, (h.map refundedAmt).sum_eq,
    (h.map revenueAmt).sum_eq]

theorem C6_metrics_permutation_witness :
    calculateMetrics [txA, txB] = calculateMetrics [txB, txA] :=
  C6_metrics_permutation [txA, txB] [txB, txA] (List.Perm.swap txB txA [])

/-- C9: calculateMetrics on the fixed five-record synthetic dataset yields
exactly the totals stated by the spec scenario. -/
theorem C9_mock_metrics :
    calculateMetrics getMockTransactions =
      { totalApproved := JsNum.num 430.50, totalPending := JsNum.num 320.75,
        totalDeclined := JsNum.num 95.00, totalRefunded := JsNum.num 450.25,
        totalTransactions := 5, totalRevenue := JsNum.num (-19.75) } := by
  rw [calculateMetrics_eq]
  simp [getMockTransactions, approvedAmt, pendingAmt, declinedAmt, refundedAmt,
    revenueAmt, jsnumAddDef, jsnumSubDef, jsnumZeroDef, JsNum.add, JsNum.neg]
  norm_num

/-- C7 counterexample: with dateRange = 0 the code applies no date
constraint, so a transaction created ten days before now is kept even
though its createdDate is strictly earlier than now minus zero days. -/
theorem C7_counterexample :
    applyFilters nowW [txOld] (some (dateOnlyFilters 0)) = [txOld] ∧
    txOld.createdDate < nowW - 0 * 86400000 :=
  ⟨rfl, by decide⟩

/-- C7 amended: for every nonzero N, applyFilters with dateRange = N keeps
exactly the transactions whose createdDate is on or after now minus N days;
with dateRange absent (or any other filter field also absent) no constraint
is applied. -/
theorem C7_date_filter (now n : Int) (ts : List Transaction) (h : n ≠ 0) :
    applyFilters now ts (some (dateOnlyFilters n)) =
      ts.filter (fun t => decide (now - n * 86400000 ≤ t.createdDate)) ∧
    applyFilters now ts (some emptyFilters) = ts := by
  refine ⟨?_, rfl⟩
  simp [applyFilters, dateOnlyFilters, h]

theorem C7_date_filter_witness :
    applyFilters nowW [txA, txOld] (some (dateOnlyFilters 7)) =
      [txA, txOld].filter (fun t => decide (nowW - 7 * 86400000 ≤ t.createdDate)) ∧
    applyFilters nowW [txA, txOld] (some emptyFilters) = [txA, txOld] :=
  C7_date_filter nowW 7 [txA, txOld] (by decide)

/-- C8: applyFilters with filters absent, or with an empty filter object,
returns the input collection unchanged (the model is pure, so the input is
never mutated). -/
theorem C8_no_filters_identity (now : Int) (ts : List Transaction) :
    applyFilters now ts none = ts ∧
    applyFilters now ts (some emptyFilters) = ts :=
  ⟨rfl, rfl⟩

/-- C10: the falsy filter values dateRange = 0 and searchQuery empty string
are treated exactly like absent fields: no date and no search constraint. -/
theorem C10_falsy_filters_ignored (now : Int) (ts : List Transaction)
    (st : Option String) (lim off : Option Int) :
    applyFilters now ts (some { status := st, dateRange := some 0, searchQuery := some "", limit := lim, offset := off }) =
    applyFilters now ts (some { status := st, dateRange := none, searchQuery := none, limit := lim, offset := off }) :=
  rfl

theorem paymentCanonStatus_optStatus (p : WixPayment) :
    paymentCanonStatus p =
      (match optStatus p with
       | none => CanonStatus.PENDING
       | some s =>
         if s = "" then CanonStatus.PENDING
         else if s = "APPROVED" ∨ s = "AUTHORIZED" then CanonStatus.APPROVED
         else if s = "DECLINED" ∨ s = "CANCELED" then CanonStatus.DECLINED
         else if s = "REFUNDED" ∨ s = "PARTIALLY_REFUNDED" then CanonStatus.REFUNDED
         else CanonStatus.PENDING) := by
  cases hd : p.regularPaymentDetails with
  | none => simp [paymentCanonStatus, optStatus, hd]
  | some d => cases hds : d.status <;> simp [paymentCanonStatus, optStatus, hd, hds]

/-- C5: the derived canonical status of a payment follows the enumerated
provider status groups case-sensitively, defaulting to PENDING for any
other, empty or absent status, and a refund is unconditionally REFUNDED. -/
theorem C5_status_mapping (now : Int) (p : WixPayment) (o : Option WixOrder)
    (r : WixRefund) :
    (optStatus p = some "APPROVED" ∨ optStatus p = some "AUTHORIZED" →
      (transformPaymentToTransaction now p o).status = CanonStatus.APPROVED) ∧
    (optStatus p = some "DECLINED" ∨ optStatus p = some "CANCELED" →
      (transformPaymentToTransaction now p o).status = CanonStatus.DECLINED) ∧
    (optStatus p = some "REFUNDED" ∨ optStatus p = some "PARTIALLY_REFUNDED" →
      (transformPaymentToTransaction now p o).status = CanonStatus.REFUNDED) ∧
    (optStatus p = some "PENDING" ∨ optStatus p = some "PENDING_MERCHANT" →
      (transformPaymentToTransaction now p o).status = CanonStatus.PENDING) ∧
    (∀ s, optStatus p = some s →
      s ∉ (["APPROVED", "AUTHORIZED", "DECLINED", "CANCELED", "REFUNDED",
        "PARTIALLY_REFUNDED", "PENDING", "PENDING_MERCHANT"] : List String) →
      (transformPaymentToTransaction now p o).status = CanonStatus.PENDING) ∧
    (optStatus p = none →
      (transformPaymentToTransaction now p o).status = CanonStatus.PENDING) ∧
    (transformRefundToTransaction now r o).status = CanonStatus.REFUNDED := by
  refine ⟨?_, ?_, ?_, ?_, ?_, ?_, rfl⟩
  · intro h
    show paymentCanonStatus p = CanonStatus.APPROVED
    rcases h with h | h <;> rw [paymentCanonStatus_optStatus, h] <;> simp
  · intro h
    show paymentCanonStatus p = CanonStatus.DECLINED
    rcases h with h | h <;> rw [paymentCanonStatus_optStatus, h] <;> simp
  · intro h
    show paymentCanonStatus p = CanonStatus.REFUNDED
    rcases h with h | h <;> rw [paymentCanonStatus_optStatus, h] <;> simp
  · intro h
    show paymentCanonStatus p = CanonStatus.PENDING
    rcases h with h | h <;> rw [paymentCanonStatus_optStatus, h] <;> simp
  · intro s hs hmem
    show paymentCanonStatus p = CanonStatus.PENDING
    rw [paymentCanonStatus_optStatus, hs]
    simp only [List.mem_cons, List.mem_singleton, not_or] at hmem
    obtain ⟨h1, h2, h3, h4, h5, h6, h7, h8, -⟩ := hmem
    by_cases hse : s = ""
    · simp [hse]
    · simp [hse, h1, h2, h3, h4, h5, h6, h7, h8]
  · intro h
    show paymentCanonStatus p = CanonStatus.PENDING
    rw [paymentCanonStatus_optStatus, h]

theorem C5_status_mapping_witness :
    (transformPaymentToTransaction 0 pAuth none).status = CanonStatus.APPROVED ∧
    (transformRefundToTransaction 0 rfEmpty none).status = CanonStatus.REFUNDED :=
  ⟨(C5_status_mapping 0 pAuth none rfEmpty).1 (Or.inr rfl),
   (C5_status_mapping 0 pAuth none rfEmpty).2.2.2.2.2.2⟩

theorem jsParseFloat_zero : jsParseFloat "0" = JsNum.num 0 := by
  have h : parseDecimal "0" = some (false, 0, 0, 0) := by decide
  simp [jsParseFloat, h]

/-- C2 counterexample: an unparsable non-empty amount string produces NaN,
not 0, and a negative amount string produces a negative amount. -/
theorem C2_counterexample :
    (transformPaymentToTransaction 0 pBadAmount none).amount = JsNum.nan ∧
    JsNum.nan ≠ JsNum.num 0 ∧
    (transformPaymentToTransaction 0 pNegAmount none).amount = JsNum.num (-5) ∧
    (-5 : ℚ) < 0 := by
  refine ⟨by decide, by decide, ?_, by norm_num⟩
  show jsParseFloat "-5" = JsNum.num (-5)
  have h : parseDecimal "-5" = some (true, 5, 0, 0) := by decide
  simp [jsParseFloat, h]

/-- C2 amended: the produced amount is parseFloat of the provider amount
string with a missing or empty string replaced by the literal zero string
(hence exactly 0 in those cases); an unparsable non-empty string yields NaN
and a negative string yields a negative amount, for payments and refunds. -/
theorem C2_amount_parsing (now : Int) (p : WixPayment) (o : Option WixOrder)
    (r : WixRefund) :
    (paymentAmtStr p = none ∨ paymentAmtStr p = some "" →
      (transformPaymentToTransaction now p o).amount = JsNum.num 0) ∧
    (∀ s, paymentAmtStr p = some s → s ≠ "" →
      (transformPaymentToTransaction now p o).amount = jsParseFloat s) ∧
    (refundAmtStr r = none ∨ refundAmtStr r = some "" →
      (transformRefundToTransaction now r o).amount = JsNum.num 0) ∧
    (∀ s, refundAmtStr r = some s → s ≠ "" →
      (transformRefundToTransaction now r o).amount = jsParseFloat s) := by
  refine ⟨?_, ?_, ?_, ?_⟩
  · intro h
    show jsParseFloat (jsStrOr (paymentAmtStr p) "0") = JsNum.num 0
    rcases h with h | h <;> rw [h] <;> simp [jsStrOr, jsParseFloat_zero]
  · intro s hs hne
    show jsParseFloat (jsStrOr (paymentAmtStr p) "0") = jsParseFloat s
    rw [hs]
    simp [jsStrOr, hne]
  · intro h
    show jsParseFloat (jsStrOr (refundAmtStr r) "0") = JsNum.num 0
    rcases h with h | h <;> rw [h] <;> simp [jsStrOr, jsParseFloat_zero]
  · intro s hs hne
    show jsParseFloat (jsStrOr (refundAmtStr r) "0") = jsParseFloat s
    rw [hs]
    simp [jsStrOr, hne]

theorem C2_amount_parsing_witness :
    (transformPaymentToTransaction 0 pNoAmount none).amount = JsNum.num 0 ∧
    (transformPaymentToTransaction 0 pNegAmount none).amount = jsParseFloat "-5" :=
  ⟨(C2_amount_parsing 0 pNoAmount none rfEmpty).1 (Or.inl rfl),
   (C2_amount_parsing 0 pNegAmount none rfEmpty).2.1 "-5" rfl (by decide)⟩

/-- C4: on any of the named provider failure modes — the order search
throwing, the order search returning an empty (or absent) order collection,
or the transaction listing throwing — fetchTransactions does not propagate
the failure and returns exactly the fixed five-record synthetic dataset
with usingMockData true. -/
theorem C4_provider_failure_fallback (env : ProviderEnv) (now : Int)
    (filters : Option TransactionFilters) (h : providerFailure env) :
    fetchTransactions env now filters =
      { data := getMockTransactions, usingMockData := true } ∧
    getMockTransactions.length = 5 := by
  refine ⟨?_, rfl⟩
  rcases h with ⟨e, he⟩ | ⟨r, hr, h1 | h1⟩ | ⟨r, os, e, hr, hos, hne, hlist⟩
  · simp [fetchTransactions, he]
  · simp [fetchTransactions, hr, h1]
  · simp [fetchTransactions, hr, h1]
  · have hlen : 0 < os.length := List.length_pos.mpr hne
    simp [fetchTransactions, hr, hos, hlen, hlist]

theorem C4_provider_failure_fallback_witness :
    fetchTransactions envErr 0 none =
      { data := getMockTransactions, usingMockData := true } ∧
    getMockTransactions.length = 5 :=
  C4_provider_failure_fallback envErr 0 none (Or.inl ⟨"network error", rfl⟩)

set_option maxHeartbeats 2000000 in
/-- C1: refreshTransactions is fetchTransactions with the dateRange 7 filter
object, but fetchTransactions never reads dateRange, so no seven-day
restriction is applied. On a provider returning a thirty-day-old payment the
code returns that payment from live data, while the claimed seven-day
restricted specification of refreshTransactions excludes it, so the two
disagree. -/
theorem C1_refresh_not_date_restricted :
    (refreshTransactions envC1 nowW).data.map Transaction.createdDate =
      [nowW - 30 * 86400000] ∧
    (refreshTransactions envC1 nowW).usingMockData = false ∧
    (refreshTransactionsSpec envC1 nowW).data = [] ∧
    refreshTransactions envC1 nowW ≠ refreshTransactionsSpec envC1 nowW := by
  have h1 : (refreshTransactions envC1 nowW).data.map Transaction.createdDate =
      [nowW - 30 * 86400000] := by decide
  have h3 : (refreshTransactionsSpec envC1 nowW).data = [] := by decide
  refine ⟨h1, rfl, h3, fun hEq => ?_⟩
  rw [hEq, h3] at h1
  simp at h1
